import Mathlib

/-!
# Secret Store key-server core: a shallow embedding

A Lean model of the Parity Secret Store key-server facade and of the cluster
wire framing, translated from `src/secret_store/src/key_server.rs`,
`src/secret_store/src/types/all.rs`, `src/secret_store/src/key_server_cluster/mod.rs`
and `src/secret_store/src/key_server_cluster/io/message.rs`.

Collaborator crates (`ethkey`, `ethcrypto`, `serde_json`) and the message
payload structs (`key_server_cluster::message`, not under `src/`) are modelled
abstractly, following the specification's description of their behaviour; each
such definition is marked `Modelled from the spec:` in its doc comment.
Bytes are modelled as `Nat` (with value bounds carried as hypotheses where the
Rust types `u8`/`u16` guarantee them) and byte strings as `List Nat`.
-/

namespace SecretStore

/-- Errors of a cluster encryption/decryption session
(`key_server_cluster::Error`, `mod.rs`). -/
inductive ClusterError where
  | InvalidNodeAddress
  | InvalidNodeId
  | DuplicateSessionId
  | InvalidSessionId
  | InvalidNodesCount
  | InvalidNodesConfiguration
  | InvalidThreshold
  | TooEarlyForRequest
  | InvalidStateForRequest
  | InvalidMessage
  | NodeDisconnected
  | EthKey (e : String)
  | Io (e : String)
  | Serde (e : String)
  | KeyStorage (e : String)
  | AccessDenied
  deriving DecidableEq

/-- Display string of a cluster error (`impl fmt::Display for Error`, `mod.rs`).
The facade's `Into<String>` conversion is `format!` of this display. -/
def ClusterError.display : ClusterError → String
  | .InvalidNodeAddress => "invalid node address has been passed"
  | .InvalidNodeId => "invalid node id has been passed"
  | .DuplicateSessionId => "session with the same id is already registered"
  | .InvalidSessionId => "invalid session id has been passed"
  | .InvalidNodesCount => "invalid nodes count"
  | .InvalidNodesConfiguration => "invalid nodes configuration"
  | .InvalidThreshold => "invalid threshold value has been passed"
  | .TooEarlyForRequest => "session is not yet ready to process this request"
  | .InvalidStateForRequest => "session is in invalid state for processing this request"
  | .InvalidMessage => "invalid message is received"
  | .NodeDisconnected => "node required for this operation is currently disconnected"
  | .EthKey e => "cryptographic error " ++ e
  | .Io e => "i/o error " ++ e
  | .Serde e => "serde error " ++ e
  | .KeyStorage e => "key storage error " ++ e
  | .AccessDenied => "Access denied"

/-- Facade error (`types::all::Error`, `all.rs`). -/
inductive Error where
  | BadSignature
  | AccessDenied
  | DocumentNotFound
  | Database (s : String)
  | Internal (s : String)
  deriving DecidableEq

/-- Conversion of a cluster error into a facade error
(`impl From<key_server_cluster::Error> for Error`, `all.rs` lines 132-139):
`AccessDenied` passes through, every other kind becomes `Internal` holding the
cluster error's display string. -/
def clusterErrorToError : ClusterError → Error
  | ClusterError.AccessDenied => Error.AccessDenied
  | err => Error.Internal err.display

/-! ## Wire framing (`key_server_cluster/io/message.rs`) -/

/-- Size of serialized header (`MESSAGE_HEADER_SIZE`). -/
def MESSAGE_HEADER_SIZE : Nat := 4

/-- Message header (`MessageHeader`): version and kind are `u8`, size is `u16`
little-endian. Fields are `Nat` here; the Rust type bounds (`< 256`, `< 65536`)
are carried as hypotheses where they matter. -/
structure MessageHeader where
  version : Nat
  kind : Nat
  size : Nat
  deriving DecidableEq

/-- Serialize message header (`serialize_header`): version byte, kind byte,
then the size as two little-endian bytes. The `% 256` reductions reflect the
`u8`/`u16` machine types of the written values. -/
def serialize_header (header : MessageHeader) : List Nat :=
  [header.version % 256, header.kind % 256, header.size % 256, header.size / 256 % 256]

/-- Deserialize message header (`deserialize_header`): reads one version byte,
one kind byte and a little-endian `u16` size; a short buffer is an I/O error
(`From<IoError>` gives `ClusterError.Io`). -/
def deserialize_header (data : List Nat) : Except ClusterError MessageHeader :=
  match data with
  | b0 :: b1 :: b2 :: b3 :: _ =>
    Except.ok { version := b0, kind := b1, size := b2 + 256 * b3 }
  | _ => Except.error (ClusterError.Io "failed to fill whole buffer")

/-- Build serialized message from header and payload (`build_serialized_message`):
a payload longer than `u16::MAX = 65535` bytes is rejected with
`InvalidMessage`; otherwise the header is re-emitted with `size` set to the
payload length and the payload appended. -/
def build_serialized_message (header : MessageHeader) (payload : List Nat) :
    Except ClusterError (List Nat) :=
  if payload.length > 65535 then Except.error ClusterError.InvalidMessage
  else Except.ok (serialize_header { header with size := payload.length } ++ payload)

/-! ## Messages and their payload codec

The message payload structs live in `key_server_cluster::message` which is not
under `src/`; only the variant names and their stable wire numbers are known
(from the dispatch in `io/message.rs` and the spec's kind table). Payloads are
therefore modelled by a type parameter `P`, and the JSON codec
(`serde_json::to_vec` / `serde_json::from_slice`) by an abstract
encoder/decoder pair. -/

/-- Modelled from the spec: cluster-level messages (kinds 1-4 of the kind
table); the payload struct of each variant is abstracted to `P`. -/
inductive ClusterMessage (P : Type) where
  | NodePublicKey (payload : P)
  | NodePrivateKeySignature (payload : P)
  | KeepAlive (payload : P)
  | KeepAliveResponse (payload : P)

/-- Modelled from the spec: encryption-session messages (kinds 50-58 of the
kind table); the payload struct of each variant is abstracted to `P`. -/
inductive EncryptionMessage (P : Type) where
  | InitializeSession (payload : P)
  | ConfirmInitialization (payload : P)
  | CompleteInitialization (payload : P)
  | KeysDissemination (payload : P)
  | Complaint (payload : P)
  | ComplaintResponse (payload : P)
  | PublicKeyShare (payload : P)
  | SessionError (payload : P)
  | SessionCompleted (payload : P)

/-- Modelled from the spec: decryption-session messages (kinds 100-104 of the
kind table); the payload struct of each variant is abstracted to `P`. -/
inductive DecryptionMessage (P : Type) where
  | InitializeDecryptionSession (payload : P)
  | ConfirmDecryptionInitialization (payload : P)
  | RequestPartialDecryption (payload : P)
  | PartialDecryption (payload : P)
  | DecryptionSessionError (payload : P)

/-- Modelled from the spec: the message union (`Message` of
`key_server_cluster::message`). -/
inductive Message (P : Type) where
  | Cluster (m : ClusterMessage P)
  | Encryption (m : EncryptionMessage P)
  | Decryption (m : DecryptionMessage P)

/-- Modelled from the spec: the JSON payload codec, standing for
`serde_json::to_vec` and `serde_json::from_slice`. Encoding is total;
decoding may fail with the library's error string. -/
structure PayloadCodec (P : Type) where
  enc : P → List Nat
  dec : List Nat → Except String P

/-- Serialize message (`serialize_message`): the match assigns each variant its
stable wire kind number and JSON-encodes its payload, then the frame is built
by `build_serialized_message` with a header of version 1. -/
def serialize_message {P : Type} (c : PayloadCodec P) (message : Message P) :
    Except ClusterError (List Nat) :=
  let kp : Nat × List Nat :=
    match message with
    | .Cluster (.NodePublicKey payload) => (1, c.enc payload)
    | .Cluster (.NodePrivateKeySignature payload) => (2, c.enc payload)
    | .Cluster (.KeepAlive payload) => (3, c.enc payload)
    | .Cluster (.KeepAliveResponse payload) => (4, c.enc payload)
    | .Encryption (.InitializeSession payload) => (50, c.enc payload)
    | .Encryption (.ConfirmInitialization payload) => (51, c.enc payload)
    | .Encryption (.CompleteInitialization payload) => (52, c.enc payload)
    | .Encryption (.KeysDissemination payload) => (53, c.enc payload)
    | .Encryption (.Complaint payload) => (54, c.enc payload)
    | .Encryption (.ComplaintResponse payload) => (55, c.enc payload)
    | .Encryption (.PublicKeyShare payload) => (56, c.enc payload)
    | .Encryption (.SessionError payload) => (57, c.enc payload)
    | .Encryption (.SessionCompleted payload) => (58, c.enc payload)
    | .Decryption (.InitializeDecryptionSession payload) => (100, c.enc payload)
    | .Decryption (.ConfirmDecryptionInitialization payload) => (101, c.enc payload)
    | .Decryption (.RequestPartialDecryption payload) => (102, c.enc payload)
    | .Decryption (.PartialDecryption payload) => (103, c.enc payload)
    | .Decryption (.DecryptionSessionError payload) => (104, c.enc payload)
  build_serialized_message { version := 1, kind := kp.1, size := 0 } kp.2

/-- Deserialize message (`deserialize_message`): dispatch on the header kind;
each known kind JSON-decodes the payload into its variant (decode failure is
`Serde` of the library error), every other kind fails with
`Serde ("unknown message type k")`. -/
def deserialize_message {P : Type} (c : PayloadCodec P) (header : MessageHeader)
    (payload : List Nat) : Except ClusterError (Message P) :=
  match header.kind with
  | 1 => match c.dec payload with
         | .ok p => .ok (.Cluster (.NodePublicKey p))
         | .error e => .error (.Serde e)
  | 2 => match c.dec payload with
         | .ok p => .ok (.Cluster (.NodePrivateKeySignature p))
         | .error e => .error (.Serde e)
  | 3 => match c.dec payload with
         | .ok p => .ok (.Cluster (.KeepAlive p))
         | .error e => .error (.Serde e)
  | 4 => match c.dec payload with
         | .ok p => .ok (.Cluster (.KeepAliveResponse p))
         | .error e => .error (.Serde e)
  | 50 => match c.dec payload with
          | .ok p => .ok (.Encryption (.InitializeSession p))
          | .error e => .error (.Serde e)
  | 51 => match c.dec payload with
          | .ok p => .ok (.Encryption (.ConfirmInitialization p))
          | .error e => .error (.Serde e)
  | 52 => match c.dec payload with
          | .ok p => .ok (.Encryption (.CompleteInitialization p))
          | .error e => .error (.Serde e)
  | 53 => match c.dec payload with
          | .ok p => .ok (.Encryption (.KeysDissemination p))
          | .error e => .error (.Serde e)
  | 54 => match c.dec payload with
          | .ok p => .ok (.Encryption (.Complaint p))
          | .error e => .error (.Serde e)
  | 55 => match c.dec payload with
          | .ok p => .ok (.Encryption (.ComplaintResponse p))
          | .error e => .error (.Serde e)
  | 56 => match c.dec payload with
          | .ok p => .ok (.Encryption (.PublicKeyShare p))
          | .error e => .error (.Serde e)
  | 57 => match c.dec payload with
          | .ok p => .ok (.Encryption (.SessionError p))
          | .error e => .error (.Serde e)
  | 58 => match c.dec payload with
          | .ok p => .ok (.Encryption (.SessionCompleted p))
          | .error e => .error (.Serde e)
  | 100 => match c.dec payload with
           | .ok p => .ok (.Decryption (.InitializeDecryptionSession p))
           | .error e => .error (.Serde e)
  | 101 => match c.dec payload with
           | .ok p => .ok (.Decryption (.ConfirmDecryptionInitialization p))
           | .error e => .error (.Serde e)
  | 102 => match c.dec payload with
           | .ok p => .ok (.Decryption (.RequestPartialDecryption p))
           | .error e => .error (.Serde e)
  | 103 => match c.dec payload with
           | .ok p => .ok (.Decryption (.PartialDecryption p))
           | .error e => .error (.Serde e)
  | 104 => match c.dec payload with
           | .ok p => .ok (.Decryption (.DecryptionSessionError p))
           | .error e => .error (.Serde e)
  | k => .error (.Serde ("unknown message type " ++ toString k))

/-- The wire kind number the serializer's match assigns to a message variant
(the kind table of the spec, section 4.1). -/
def message_kind {P : Type} : Message P → Nat
  | .Cluster (.NodePublicKey _) => 1
  | .Cluster (.NodePrivateKeySignature _) => 2
  | .Cluster (.KeepAlive _) => 3
  | .Cluster (.KeepAliveResponse _) => 4
  | .Encryption (.InitializeSession _) => 50
  | .Encryption (.ConfirmInitialization _) => 51
  | .Encryption (.CompleteInitialization _) => 52
  | .Encryption (.KeysDissemination _) => 53
  | .Encryption (.Complaint _) => 54
  | .Encryption (.ComplaintResponse _) => 55
  | .Encryption (.PublicKeyShare _) => 56
  | .Encryption (.SessionError _) => 57
  | .Encryption (.SessionCompleted _) => 58
  | .Decryption (.InitializeDecryptionSession _) => 100
  | .Decryption (.ConfirmDecryptionInitialization _) => 101
  | .Decryption (.RequestPartialDecryption _) => 102
  | .Decryption (.PartialDecryption _) => 103
  | .Decryption (.DecryptionSessionError _) => 104

/-- The payload a message variant carries. -/
def message_payload {P : Type} : Message P → P
  | .Cluster (.NodePublicKey p) => p
  | .Cluster (.NodePrivateKeySignature p) => p
  | .Cluster (.KeepAlive p) => p
  | .Cluster (.KeepAliveResponse p) => p
  | .Encryption (.InitializeSession p) => p
  | .Encryption (.ConfirmInitialization p) => p
  | .Encryption (.CompleteInitialization p) => p
  | .Encryption (.KeysDissemination p) => p
  | .Encryption (.Complaint p) => p
  | .Encryption (.ComplaintResponse p) => p
  | .Encryption (.PublicKeyShare p) => p
  | .Encryption (.SessionError p) => p
  | .Encryption (.SessionCompleted p) => p
  | .Decryption (.InitializeDecryptionSession p) => p
  | .Decryption (.ConfirmDecryptionInitialization p) => p
  | .Decryption (.RequestPartialDecryption p) => p
  | .Decryption (.PartialDecryption p) => p
  | .Decryption (.DecryptionSessionError p) => p

/-- The kind numbers the dispatch tables of `serialize_message` and
`deserialize_message` know. -/
def knownKinds : List Nat :=
  [1, 2, 3, 4, 50, 51, 52, 53, 54, 55, 56, 57, 58, 100, 101, 102, 103, 104]

/-! ## Link encryption (`encrypt_message` / `decrypt_message` / `compute_shared_key`) -/

/-- A link keypair. Modelled from the spec: an `ethkey::KeyPair` is determined
by its secret scalar (the public key is derived from it), so only the secret
is carried here. -/
structure KeyPair where
  secret : Nat
  deriving DecidableEq

/-- Modelled from the spec: ECIES single-message encryption and decryption
from the `ethcrypto` collaborator crate (not under `src/`). The Rust call
sites pass `key.public()` to encrypt and `key.secret()` to decrypt; both are
determined by the keypair, so the model keys both operations by the keypair. -/
structure Ecies where
  encrypt_single_message : KeyPair → List Nat → Except String (List Nat)
  decrypt_single_message : KeyPair → List Nat → Except String (List Nat)

/-- Encrypt serialized message (`encrypt_message`): split off the 4 header
bytes, ECIES-encrypt the payload under the link key, re-parse the header and
re-emit it over the ciphertext via `build_serialized_message` (so its size
field becomes the ciphertext length). ECIES failure maps to `EthKey` via
`From<ethcrypto::Error>`. -/
def encrypt_message (E : Ecies) (key : KeyPair) (message : List Nat) :
    Except ClusterError (List Nat) :=
  let headerBytes := message.take MESSAGE_HEADER_SIZE
  let payload := message.drop MESSAGE_HEADER_SIZE
  match E.encrypt_single_message key payload with
  | .error e => .error (ClusterError.EthKey e)
  | .ok encrypted_payload =>
    match deserialize_header headerBytes with
    | .error e => .error e
    | .ok header => build_serialized_message header encrypted_payload

/-- Decrypt serialized message payload (`decrypt_message`): ECIES-decrypt with
the link key's secret; failure maps to `EthKey`. -/
def decrypt_message (E : Ecies) (key : KeyPair) (payload : List Nat) :
    Except ClusterError (List Nat) :=
  match E.decrypt_single_message key payload with
  | .ok m => .ok m
  | .error e => .error (ClusterError.EthKey e)

/-- Modelled from the spec: the order of the secp256k1 group
(`ethkey::math::curve_order`). -/
def curve_order : Nat :=
  115792089237316195423570985008687907852837564279074904382605163141518161494337

/-- Modelled from the spec: `ethkey::KeyPair::from_secret_slice` accepts
exactly the valid secret scalars, those in the range `[1, curve_order)`. -/
def KeyPair.from_secret_slice (s : Nat) : Except ClusterError KeyPair :=
  if 1 ≤ s ∧ s < curve_order then Except.ok { secret := s }
  else Except.error (ClusterError.EthKey "invalid secret")

/-- Compute shared encryption key (`compute_shared_key`): the raw ECDH
agreement (a 256-bit value, abstracted here as the function `agree` of the
`ethcrypto::ecdh` collaborator) is reduced modulo the curve order — the raw
output may fall outside the valid scalar range — and the link keypair is built
from the reduced scalar. -/
def compute_shared_key (agree : Nat → Nat → Except String Nat)
    (self_secret other_public : Nat) : Except ClusterError KeyPair :=
  match agree self_secret other_public with
  | .error e => .error (ClusterError.EthKey e)
  | .ok shared_secret => KeyPair.from_secret_slice (shared_secret % curve_order)

/-! ## Key-server facade (`key_server.rs`, `types/all.rs`) -/

/-- Document address: a 32-byte identifier, abstracted to `Nat`. -/
abbrev DocumentAddress := Nat

/-- Requestor signature over the document address, abstracted to `Nat`. -/
abbrev RequestSignature := Nat

/-- An EC public key (`ethkey::Public`), abstracted to `Nat`. -/
abbrev Public := Nat

/-- Shadow decryption result (`DocumentEncryptedKeyShadow`, `all.rs` lines
102-112): the (possibly partially) decrypted secret point, the shared common
point, and — if shadow decryption was requested — the shadow coefficients
encrypted with the requestor public. -/
structure DocumentEncryptedKeyShadow where
  decrypted_secret : Public
  common_point : Option Public
  decrypt_shadows : Option (List (List Nat))
  deriving DecidableEq

/-- Modelled from the spec: the cluster client as seen by the facade. A
session is represented by the result of its `wait()` call, so each operation
returns the session-creation result, which on success carries the wait result.
`new_decryption_session` takes the document, the requestor signature and the
`is_shadow` flag exactly as in `ClusterClient`. -/
structure ClusterClient where
  new_encryption_session :
    DocumentAddress → Nat → Except ClusterError (Except ClusterError Public)
  new_decryption_session :
    DocumentAddress → RequestSignature → Bool →
      Except ClusterError (Except ClusterError DocumentEncryptedKeyShadow)

/-- Modelled from the spec: the external crypto the facade calls —
`ethkey::recover` (recovering the requestor public key from the signature over
the document address) and `ethcrypto::ecies::encrypt_single_message`
(encrypting a resulting key point under the requestor public key). -/
structure ExternalCrypto where
  recover : RequestSignature → DocumentAddress → Except String Public
  encrypt_single_message : Public → Public → Except String (List Nat)

/-- Generate document key (`KeyServerImpl::generate_document_key`, lines
60-73): recover the requestor public from the signature (failure is
`BadSignature`), create an encryption session and wait for the generated
document key (cluster errors convert via `From`), then ECIES-encrypt the key
to the requestor (failure is `Internal`). -/
def generate_document_key (X : ExternalCrypto) (cluster : ClusterClient)
    (signature : RequestSignature) (document : DocumentAddress) (threshold : Nat) :
    Except Error (List Nat) :=
  match X.recover signature document with
  | .error _ => .error Error.BadSignature
  | .ok public =>
    match cluster.new_encryption_session document threshold with
    | .error e => .error (clusterErrorToError e)
    | .ok encryption_session =>
      match encryption_session with
      | .error e => .error (clusterErrorToError e)
      | .ok document_key =>
        match X.encrypt_single_message public document_key with
        | .error err => .error (Error.Internal ("Error encrypting document key: " ++ err))
        | .ok document_key => .ok document_key

/-- Retrieve document key (`KeyServerImpl::document_key`, lines 75-89):
recover the requestor public from the signature (failure is `BadSignature`),
create a decryption session with `is_shadow = false` and wait, take the
`decrypted_secret` of the result, then ECIES-encrypt it to the requestor. -/
def document_key (X : ExternalCrypto) (cluster : ClusterClient)
    (signature : RequestSignature) (document : DocumentAddress) :
    Except Error (List Nat) :=
  match X.recover signature document with
  | .error _ => .error Error.BadSignature
  | .ok public =>
    match cluster.new_decryption_session document signature false with
    | .error e => .error (clusterErrorToError e)
    | .ok decryption_session =>
      match decryption_session with
      | .error e => .error (clusterErrorToError e)
      | .ok result =>
        match X.encrypt_single_message public result.decrypted_secret with
        | .error err => .error (Error.Internal ("Error encrypting document key: " ++ err))
        | .ok document_key => .ok document_key

/-- Retrieve document key shadow (`KeyServerImpl::document_key_shadow`, lines
91-94): no signature recovery happens; a decryption session is created with
the signature passed through and the `is_shadow` argument literally `false`,
and the wait result is returned unchanged (errors convert via `From`). -/
def document_key_shadow (cluster : ClusterClient)
    (signature : RequestSignature) (document : DocumentAddress) :
    Except Error DocumentEncryptedKeyShadow :=
  match cluster.new_decryption_session document signature false with
  | .error e => .error (clusterErrorToError e)
  | .ok decryption_session =>
    match decryption_session with
    | .error e => .error (clusterErrorToError e)
    | .ok result => .ok result

/-! ## Helper lemmas -/

/-- The serializer is the kind/payload match followed by frame building. -/
theorem serialize_message_def {P : Type} (c : PayloadCodec P) (m : Message P) :
    serialize_message c m =
      build_serialized_message { version := 1, kind := message_kind m, size := 0 }
        (c.enc (message_payload m)) := by
  cases m with
  | Cluster cm => cases cm <;> rfl
  | Encryption em => cases em <;> rfl
  | Decryption dm => cases dm <;> rfl

/-- Inversion of a successful `build_serialized_message`. -/
theorem build_serialized_message_ok {header : MessageHeader} {payload sm : List Nat}
    (h : build_serialized_message header payload = Except.ok sm) :
    payload.length ≤ 65535 ∧
      sm = serialize_header { header with size := payload.length } ++ payload := by
  unfold build_serialized_message at h
  split at h
  · exact absurd h (by simp)
  · exact ⟨by omega, (Except.ok.inj h).symm⟩

/-- A frame's header parses back to the header it was built from, for in-range
field values. -/
theorem deserialize_header_append (h : MessageHeader) (rest : List Nat)
    (hv : h.version < 256) (hk : h.kind < 256) (hs : h.size < 65536) :
    deserialize_header (serialize_header h ++ rest) = Except.ok h := by
  have hsz : h.size % 256 + 256 * (h.size / 256 % 256) = h.size := by omega
  simp [serialize_header, deserialize_header, Nat.mod_eq_of_lt hv, Nat.mod_eq_of_lt hk, hsz]

/-- Dropping the header bytes of a built frame leaves the payload. -/
theorem drop_serialize_header (h : MessageHeader) (rest : List Nat) :
    (serialize_header h ++ rest).drop MESSAGE_HEADER_SIZE = rest := rfl

/-- Taking the header bytes of a built frame gives the serialized header. -/
theorem take_serialize_header (h : MessageHeader) (rest : List Nat) :
    (serialize_header h ++ rest).take MESSAGE_HEADER_SIZE = serialize_header h := rfl

/-- Parsing a header only looks at the first four bytes. -/
theorem deserialize_header_take (sm : List Nat) :
    deserialize_header (sm.take MESSAGE_HEADER_SIZE) = deserialize_header sm := by
  rcases sm with _ | ⟨a, _ | ⟨b, _ | ⟨c, _ | ⟨d, t⟩⟩⟩⟩ <;> rfl

/-- Every wire kind number of the table is below 256 (it is a `u8`). -/
theorem message_kind_lt {P : Type} (m : Message P) : message_kind m < 256 := by
  cases m with
  | Cluster cm => cases cm <;> simp [message_kind]
  | Encryption em => cases em <;> simp [message_kind]
  | Decryption dm => cases dm <;> simp [message_kind]

/-- Deserializing at a message's own kind with its decoded payload returns the
message. -/
theorem deserialize_message_mk {P : Type} (c : PayloadCodec P) (m : Message P)
    (v s : Nat) (pl : List Nat) (hdec : c.dec pl = Except.ok (message_payload m)) :
    deserialize_message c { version := v, kind := message_kind m, size := s } pl =
      Except.ok m := by
  cases m with
  | Cluster cm => cases cm <;> simp [deserialize_message, message_kind, message_payload] at hdec ⊢ <;> simp [hdec]
  | Encryption em => cases em <;> simp [deserialize_message, message_kind, message_payload] at hdec ⊢ <;> simp [hdec]
  | Decryption dm => cases dm <;> simp [deserialize_message, message_kind, message_payload] at hdec ⊢ <;> simp [hdec]

/-- Inversion of a successful `serialize_message`: the frame is the version-1
header with the payload length as size, followed by the encoded payload. -/
theorem serialize_message_ok {P : Type} {c : PayloadCodec P} {m : Message P}
    {sm : List Nat} (hs : serialize_message c m = Except.ok sm) :
    (c.enc (message_payload m)).length ≤ 65535 ∧
      sm = serialize_header { version := 1, kind := message_kind m,
                              size := (c.enc (message_payload m)).length } ++
           c.enc (message_payload m) := by
  rw [serialize_message_def] at hs
  exact build_serialized_message_ok hs

/-- The facade's error conversion never yields `BadSignature` or
`DocumentNotFound`: every cluster error maps to `AccessDenied` or `Internal`. -/
theorem clusterErrorToError_cases (e : ClusterError) :
    clusterErrorToError e = Error.AccessDenied ∨
      ∃ s, clusterErrorToError e = Error.Internal s := by
  cases e <;> first
    | exact Or.inl rfl
    | exact Or.inr ⟨_, rfl⟩

/-- A kind outside the table falls through to the unknown-message error. -/
theorem deserialize_message_unknown {P : Type} (c : PayloadCodec P) (v k s : Nat)
    (pl : List Nat) (hk : k ∉ knownKinds) :
    deserialize_message c { version := v, kind := k, size := s } pl =
      Except.error (ClusterError.Serde ("unknown message type " ++ toString k)) := by
  simp only [knownKinds, List.mem_cons, List.not_mem_nil, or_false, not_or] at hk
  obtain ⟨h1, h2, h3, h4, h50, h51, h52, h53, h54, h55, h56, h57, h58,
    h100, h101, h102, h103, h104⟩ := hk
  unfold deserialize_message
  split <;> simp_all

/-- The identity payload codec on raw byte lists, used to instantiate the
framing theorems on concrete inputs. -/
def idCodec : PayloadCodec (List Nat) :=
  { enc := fun p => p, dec := fun p => Except.ok p }

/-! ## Claim theorems -/

/-- Claim C3: for every message, deserializing the header and payload of its
serialized frame returns the message again, and the size field of the emitted
header equals the byte length of the payload that follows it. The JSON payload
codec is abstract, assumed to invert itself on encoded payloads. -/
theorem message_serialize_roundtrip {P : Type} (c : PayloadCodec P)
    (hc : ∀ p, c.dec (c.enc p) = Except.ok p)
    (m : Message P) (sm : List Nat)
    (hs : serialize_message c m = Except.ok sm) :
    ∃ hd : MessageHeader,
      deserialize_header sm = Except.ok hd ∧
      hd.size = (sm.drop MESSAGE_HEADER_SIZE).length ∧
      deserialize_message c hd (sm.drop MESSAGE_HEADER_SIZE) = Except.ok m := by
  obtain ⟨hlen, rfl⟩ := serialize_message_ok hs
  refine ⟨_, deserialize_header_append _ _ (show (1 : Nat) < 256 by norm_num)
    (message_kind_lt m)
    (show (c.enc (message_payload m)).length < 65536 by omega), ?_, ?_⟩
  · rw [drop_serialize_header]
  · rw [drop_serialize_header]
    exact deserialize_message_mk c m _ _ _ (hc _)

/-- Claim C3 witness: the round trip evaluated at a concrete keep-alive frame
with the identity payload codec. -/
theorem message_serialize_roundtrip_witness :
    ∃ hd : MessageHeader,
      deserialize_header [1, 3, 3, 0, 7, 8, 9] = Except.ok hd ∧
      hd.size = ([1, 3, 3, 0, 7, 8, 9].drop MESSAGE_HEADER_SIZE).length ∧
      deserialize_message idCodec hd ([1, 3, 3, 0, 7, 8, 9].drop MESSAGE_HEADER_SIZE) =
        Except.ok (Message.Cluster (ClusterMessage.KeepAlive [7, 8, 9])) :=
  message_serialize_roundtrip idCodec (fun _ => rfl)
    (Message.Cluster (ClusterMessage.KeepAlive [7, 8, 9])) [1, 3, 3, 0, 7, 8, 9] rfl

/-- Claim C5: a payload longer than 65535 bytes makes frame building fail with
`InvalidMessage` and no frame is produced, both at `build_serialized_message`
and lifted to `serialize_message`; a payload of at most 65535 bytes serializes
successfully with the header size field set to the payload length. -/
theorem serialize_message_size_limit {P : Type} (c : PayloadCodec P) (m : Message P) :
    (∀ (hd : MessageHeader) (pl : List Nat), pl.length > 65535 →
       build_serialized_message hd pl = Except.error ClusterError.InvalidMessage) ∧
    ((c.enc (message_payload m)).length > 65535 →
       serialize_message c m = Except.error ClusterError.InvalidMessage) ∧
    ((c.enc (message_payload m)).length ≤ 65535 →
       ∃ sm, serialize_message c m = Except.ok sm ∧
         deserialize_header sm =
           Except.ok { version := 1, kind := message_kind m,
                       size := (c.enc (message_payload m)).length } ∧
         sm.drop MESSAGE_HEADER_SIZE = c.enc (message_payload m)) := by
  refine ⟨?_, ?_, ?_⟩
  · intro hd pl hlen
    simp [build_serialized_message, hlen]
  · intro hlen
    rw [serialize_message_def]
    simp [build_serialized_message, hlen]
  · intro hlen
    rw [serialize_message_def]
    unfold build_serialized_message
    rw [if_neg (by omega)]
    exact ⟨_, rfl,
      deserialize_header_append _ _ (show (1 : Nat) < 256 by norm_num)
        (message_kind_lt m)
        (show (c.enc (message_payload m)).length < 65536 by omega),
      drop_serialize_header _ _⟩

/-- Claim C5 witness: a 65536-byte keep-alive payload is rejected with
`InvalidMessage`, and a 3-byte payload serializes with size field 3. -/
theorem serialize_message_size_limit_witness :
    serialize_message idCodec
        (Message.Cluster (ClusterMessage.KeepAlive (List.replicate 65536 0))) =
      Except.error ClusterError.InvalidMessage ∧
    ∃ sm, serialize_message idCodec
        (Message.Cluster (ClusterMessage.KeepAlive [7, 8, 9])) = Except.ok sm ∧
      deserialize_header sm = Except.ok { version := 1, kind := 3, size := 3 } ∧
      sm.drop MESSAGE_HEADER_SIZE = [7, 8, 9] :=
  ⟨(serialize_message_size_limit idCodec
      (Message.Cluster (ClusterMessage.KeepAlive (List.replicate 65536 0)))).2.1
      (show (List.replicate 65536 (0 : Nat)).length > 65535 by
        rw [List.length_replicate]; omega),
   (serialize_message_size_limit idCodec
      (Message.Cluster (ClusterMessage.KeepAlive [7, 8, 9]))).2.2
      (by simp [idCodec, message_payload])⟩

/-- Claim C6: deserialization succeeds only for the kinds of the table
(1-4, 50-58, 100-104) and then returns the variant the table assigns to the
kind number; for every kind in the table a decodable payload deserializes to
that variant; every kind outside the table fails with
`Serde ("unknown message type k")`; and serialization emits the same table
numbers in the frame header. -/
theorem deserialize_message_kind_table {P : Type} (c : PayloadCodec P)
    (v k s : Nat) (payload : List Nat) :
    (∀ m, deserialize_message c { version := v, kind := k, size := s } payload =
        Except.ok m → k ∈ knownKinds ∧ message_kind m = k) ∧
    (k ∈ knownKinds → ∀ p, c.dec payload = Except.ok p →
       ∃ m, deserialize_message c { version := v, kind := k, size := s } payload =
              Except.ok m ∧ message_kind m = k) ∧
    (k ∉ knownKinds →
       deserialize_message c { version := v, kind := k, size := s } payload =
         Except.error (ClusterError.Serde ("unknown message type " ++ toString k))) ∧
    (∀ (m : Message P) (sm : List Nat), serialize_message c m = Except.ok sm →
       ∃ hd, deserialize_header sm = Except.ok hd ∧ hd.kind = message_kind m) := by
  refine ⟨?_, ?_, deserialize_message_unknown c v k s payload, ?_⟩
  · intro m hm
    by_cases hk : k ∈ knownKinds
    · refine ⟨hk, ?_⟩
      simp only [knownKinds, List.mem_cons, List.not_mem_nil, or_false] at hk
      rcases hk with rfl | rfl | rfl | rfl | rfl | rfl | rfl | rfl | rfl | rfl | rfl |
        rfl | rfl | rfl | rfl | rfl | rfl | rfl <;>
        cases hdp : c.dec payload <;> simp [deserialize_message, hdp] at hm
      all_goals subst hm
      all_goals rfl
    · rw [deserialize_message_unknown c v k s payload hk] at hm
      exact absurd hm (by simp)
  · intro hk p hp
    simp only [knownKinds, List.mem_cons, List.not_mem_nil, or_false] at hk
    rcases hk with rfl | rfl | rfl | rfl | rfl | rfl | rfl | rfl | rfl | rfl | rfl |
      rfl | rfl | rfl | rfl | rfl | rfl | rfl <;>
      first
      | exact ⟨Message.Cluster (ClusterMessage.NodePublicKey p),
          by simp [deserialize_message, hp], rfl⟩
      | exact ⟨Message.Cluster (ClusterMessage.NodePrivateKeySignature p),
          by simp [deserialize_message, hp], rfl⟩
      | exact ⟨Message.Cluster (ClusterMessage.KeepAlive p),
          by simp [deserialize_message, hp], rfl⟩
      | exact ⟨Message.Cluster (ClusterMessage.KeepAliveResponse p),
          by simp [deserialize_message, hp], rfl⟩
      | exact ⟨Message.Encryption (EncryptionMessage.InitializeSession p),
          by simp [deserialize_message, hp], rfl⟩
      | exact ⟨Message.Encryption (EncryptionMessage.ConfirmInitialization p),
          by simp [deserialize_message, hp], rfl⟩
      | exact ⟨Message.Encryption (EncryptionMessage.CompleteInitialization p),
          by simp [deserialize_message, hp], rfl⟩
      | exact ⟨Message.Encryption (EncryptionMessage.KeysDissemination p),
          by simp [deserialize_message, hp], rfl⟩
      | exact ⟨Message.Encryption (EncryptionMessage.Complaint p),
          by simp [deserialize_message, hp], rfl⟩
      | exact ⟨Message.Encryption (EncryptionMessage.ComplaintResponse p),
          by simp [deserialize_message, hp], rfl⟩
      | exact ⟨Message.Encryption (EncryptionMessage.PublicKeyShare p),
          by simp [deserialize_message, hp], rfl⟩
      | exact ⟨Message.Encryption (EncryptionMessage.SessionError p),
          by simp [deserialize_message, hp], rfl⟩
      | exact ⟨Message.Encryption (EncryptionMessage.SessionCompleted p),
          by simp [deserialize_message, hp], rfl⟩
      | exact ⟨Message.Decryption (DecryptionMessage.InitializeDecryptionSession p),
          by simp [deserialize_message, hp], rfl⟩
      | exact ⟨Message.Decryption (DecryptionMessage.ConfirmDecryptionInitialization p),
          by simp [deserialize_message, hp], rfl⟩
      | exact ⟨Message.Decryption (DecryptionMessage.RequestPartialDecryption p),
          by simp [deserialize_message, hp], rfl⟩
      | exact ⟨Message.Decryption (DecryptionMessage.PartialDecryption p),
          by simp [deserialize_message, hp], rfl⟩
      | exact ⟨Message.Decryption (DecryptionMessage.DecryptionSessionError p),
          by simp [deserialize_message, hp], rfl⟩
  · intro m sm hs
    obtain ⟨hlen, rfl⟩ := serialize_message_ok hs
    exact ⟨_, deserialize_header_append _ _ (show (1 : Nat) < 256 by norm_num)
      (message_kind_lt m)
      (show (c.enc (message_payload m)).length < 65536 by omega), rfl⟩

/-- Claim C6 witness: kind 7 is outside the table and fails with the
unknown-message error. -/
theorem deserialize_message_kind_table_witness :
    7 ∉ knownKinds ∧
    deserialize_message idCodec { version := 1, kind := 7, size := 0 } [] =
      Except.error (ClusterError.Serde ("unknown message type " ++ toString 7)) :=
  ⟨by decide,
   (deserialize_message_kind_table idCodec 1 7 0 []).2.2.1 (by decide)⟩

/-- Claim C7: for every message and link keypair, decrypting the payload of
the encrypted frame of its serialized frame yields the original serialized
payload bytes, and deserializing that payload (under the encrypted frame's
header) yields the message again. The ECIES pair is abstract, assumed to
invert itself under the one keypair used. -/
theorem message_encrypt_roundtrip {P : Type} (c : PayloadCodec P) (E : Ecies)
    (k : KeyPair)
    (hc : ∀ p, c.dec (c.enc p) = Except.ok p)
    (hE : ∀ pl ct, E.encrypt_single_message k pl = Except.ok ct →
       E.decrypt_single_message k ct = Except.ok pl)
    (m : Message P) (sm em : List Nat)
    (hs : serialize_message c m = Except.ok sm)
    (he : encrypt_message E k sm = Except.ok em) :
    decrypt_message E k (em.drop MESSAGE_HEADER_SIZE) =
      Except.ok (sm.drop MESSAGE_HEADER_SIZE) ∧
    ∃ hd, deserialize_header em = Except.ok hd ∧
      deserialize_message c hd (sm.drop MESSAGE_HEADER_SIZE) = Except.ok m := by
  obtain ⟨hlen, rfl⟩ := serialize_message_ok hs
  have hdr : deserialize_header
      (serialize_header { version := 1, kind := message_kind m,
                          size := (c.enc (message_payload m)).length }) =
      Except.ok { version := 1, kind := message_kind m,
                  size := (c.enc (message_payload m)).length } := by
    simpa using deserialize_header_append
      { version := 1, kind := message_kind m,
        size := (c.enc (message_payload m)).length } []
      (show (1 : Nat) < 256 by norm_num) (message_kind_lt m)
      (show (c.enc (message_payload m)).length < 65536 by omega)
  simp only [encrypt_message, take_serialize_header, drop_serialize_header, hdr] at he
  cases henc : E.encrypt_single_message k (c.enc (message_payload m)) with
  | error e => simp [henc] at he
  | ok ct =>
    simp only [henc] at he
    obtain ⟨hctlen, rfl⟩ := build_serialized_message_ok he
    refine ⟨?_, ?_⟩
    · simp [decrypt_message, drop_serialize_header, hE _ _ henc]
    · refine ⟨_, deserialize_header_append _ _ (show (1 : Nat) < 256 by norm_num)
        (message_kind_lt m) (show ct.length < 65536 by omega), ?_⟩
      rw [drop_serialize_header]
      exact deserialize_message_mk c m _ _ _ (hc _)

/-- Claim C7 witness: the round trip evaluated at a concrete keep-alive frame
with the identity payload codec and an ECIES model that prepends a byte. -/
theorem message_encrypt_roundtrip_witness :
    decrypt_message
        { encrypt_single_message := fun _ pl => Except.ok (0 :: pl),
          decrypt_single_message := fun _ ct =>
            match ct with
            | 0 :: pl => Except.ok pl
            | _ => Except.error "corrupted" }
        { secret := 5 } ([1, 3, 3, 0, 0, 7, 8].drop MESSAGE_HEADER_SIZE) =
      Except.ok ([1, 3, 2, 0, 7, 8].drop MESSAGE_HEADER_SIZE) ∧
    ∃ hd, deserialize_header [1, 3, 3, 0, 0, 7, 8] = Except.ok hd ∧
      deserialize_message idCodec hd ([1, 3, 2, 0, 7, 8].drop MESSAGE_HEADER_SIZE) =
        Except.ok (Message.Cluster (ClusterMessage.KeepAlive [7, 8])) :=
  message_encrypt_roundtrip idCodec
    { encrypt_single_message := fun _ pl => Except.ok (0 :: pl),
      decrypt_single_message := fun _ ct =>
        match ct with
        | 0 :: pl => Except.ok pl
        | _ => Except.error "corrupted" }
    { secret := 5 } (fun _ => rfl)
    (fun pl ct hok => by
      simp only [Except.ok.injEq] at hok
      subst hok
      rfl)
    (Message.Cluster (ClusterMessage.KeepAlive [7, 8]))
    [1, 3, 2, 0, 7, 8] [1, 3, 3, 0, 0, 7, 8] rfl rfl

/-- Claim C8: encrypting a serialized frame leaves the header's version and
kind fields unchanged and changes only the size field, which becomes the ECIES
ciphertext length. The byte bound on the input frame reflects its Rust type
`Vec<u8>`. -/
theorem encrypt_message_header_effect (E : Ecies) (k : KeyPair) (sm em : List Nat)
    (hbytes : ∀ b ∈ sm, b < 256)
    (he : encrypt_message E k sm = Except.ok em) :
    ∃ hd ct, deserialize_header sm = Except.ok hd ∧
      E.encrypt_single_message k (sm.drop MESSAGE_HEADER_SIZE) = Except.ok ct ∧
      ct.length ≤ 65535 ∧
      deserialize_header em =
        Except.ok { version := hd.version, kind := hd.kind, size := ct.length } ∧
      em.drop MESSAGE_HEADER_SIZE = ct := by
  rcases sm with _ | ⟨b0, _ | ⟨b1, _ | ⟨b2, _ | ⟨b3, rest⟩⟩⟩⟩ <;>
    simp only [encrypt_message, MESSAGE_HEADER_SIZE, List.take, List.drop,
      deserialize_header] at he
  · cases henc : E.encrypt_single_message k [] <;> simp [henc] at he
  · cases henc : E.encrypt_single_message k [] <;> simp [henc] at he
  · cases henc : E.encrypt_single_message k [] <;> simp [henc] at he
  · cases henc : E.encrypt_single_message k [] <;> simp [henc] at he
  · cases henc : E.encrypt_single_message k rest with
    | error e => simp [henc] at he
    | ok ct =>
      simp only [henc] at he
      obtain ⟨hctlen, rfl⟩ := build_serialized_message_ok he
      have hv : b0 < 256 := hbytes b0 (by simp)
      have hk : b1 < 256 := hbytes b1 (by simp)
      exact ⟨{ version := b0, kind := b1, size := b2 + 256 * b3 }, ct, rfl, henc, hctlen,
        deserialize_header_append _ _ hv hk (show ct.length < 65536 by omega),
        drop_serialize_header _ _⟩

/-- Claim C8 witness: encrypting a concrete 4-byte frame under a prepend-a-byte
ECIES model keeps version and kind and sets the size to the ciphertext
length 1. -/
theorem encrypt_message_header_effect_witness :
    ∃ hd ct,
      deserialize_header [1, 3, 0, 0] = Except.ok hd ∧
      Ecies.encrypt_single_message
          { encrypt_single_message := fun _ pl => Except.ok (0 :: pl),
            decrypt_single_message := fun _ _ => Except.error "unused" }
          { secret := 5 } ([1, 3, 0, 0].drop MESSAGE_HEADER_SIZE) = Except.ok ct ∧
      ct.length ≤ 65535 ∧
      deserialize_header [1, 3, 1, 0, 0] =
        Except.ok { version := hd.version, kind := hd.kind, size := ct.length } ∧
      [1, 3, 1, 0, 0].drop MESSAGE_HEADER_SIZE = ct :=
  encrypt_message_header_effect
    { encrypt_single_message := fun _ pl => Except.ok (0 :: pl),
      decrypt_single_message := fun _ _ => Except.error "unused" }
    { secret := 5 } [1, 3, 0, 0] [1, 3, 1, 0, 0] (by decide) rfl

/-- Claim C4: `compute_shared_key` builds the link keypair from the raw ECDH
agreement reduced modulo the curve order, and any successfully derived
link-key secret lies in the range `[1, curve_order)`. -/
theorem compute_shared_key_range (agree : Nat → Nat → Except String Nat)
    (self_secret other_public : Nat) :
    (∀ raw, agree self_secret other_public = Except.ok raw →
       compute_shared_key agree self_secret other_public =
         KeyPair.from_secret_slice (raw % curve_order)) ∧
    (∀ kp, compute_shared_key agree self_secret other_public = Except.ok kp →
       1 ≤ kp.secret ∧ kp.secret < curve_order) := by
  constructor
  · intro raw h
    simp [compute_shared_key, h]
  · intro kp h
    unfold compute_shared_key at h
    cases hag : agree self_secret other_public with
    | error e => simp [hag] at h
    | ok raw =>
      simp only [hag] at h
      unfold KeyPair.from_secret_slice at h
      split at h
      · cases h
        simpa using by assumption
      · exact absurd h (by simp)

/-- Claim C4 witness: a constant ECDH agreement of 42 derives the keypair with
secret `42 % curve_order = 42`, which lies in the valid scalar range. -/
theorem compute_shared_key_range_witness :
    compute_shared_key (fun _ _ => Except.ok 42) 5 6 =
      KeyPair.from_secret_slice (42 % curve_order) ∧
    (1 ≤ (42 : Nat) ∧ (42 : Nat) < curve_order) :=
  ⟨(compute_shared_key_range (fun _ _ => Except.ok 42) 5 6).1 42 rfl,
   (compute_shared_key_range (fun _ _ => Except.ok 42) 5 6).2 { secret := 42 }
     (by rfl)⟩

/-! ## Concrete facade collaborators for evaluation -/

/-- A cluster whose decryption sessions honor the `is_shadow` flag: shadow
coefficients are present in the result exactly when the flag is `true`. Used
to observe which flag the facade passes. -/
def flag_probe_cluster : ClusterClient :=
  { new_encryption_session := fun _ _ => Except.error ClusterError.InvalidSessionId,
    new_decryption_session := fun _ _ is_shadow =>
      Except.ok (Except.ok
        { decrypted_secret := 0,
          common_point := some 1,
          decrypt_shadows := if is_shadow then some [[7]] else none }) }

/-- A cluster with no stored `DocumentKeyShare`: per the spec (section 4.6,
step 1) session creation fails with `InvalidSessionId` when the share for the
document is absent. -/
def absent_share_cluster : ClusterClient :=
  { new_encryption_session := fun _ _ => Except.error ClusterError.InvalidSessionId,
    new_decryption_session := fun _ _ _ => Except.error ClusterError.InvalidSessionId }

/-- A cluster whose sessions always succeed with a fixed key point 9. -/
def ok_cluster : ClusterClient :=
  { new_encryption_session := fun _ _ => Except.ok (Except.ok 9),
    new_decryption_session := fun _ _ _ =>
      Except.ok (Except.ok
        { decrypted_secret := 9, common_point := some 1, decrypt_shadows := none }) }

/-- External crypto that always recovers public key 1 and encrypts a point `p`
as the singleton ciphertext `[p]`. -/
def trivial_crypto : ExternalCrypto :=
  { recover := fun _ _ => Except.ok 1,
    encrypt_single_message := fun _ p => Except.ok [p] }

/-- External crypto whose signature recovery always fails. -/
def bad_signature_crypto : ExternalCrypto :=
  { recover := fun _ _ => Except.error "unrecoverable",
    encrypt_single_message := fun _ p => Except.ok [p] }

/-! ## Facade claim theorems -/

/-- Claim C1 (code bug evidence): `document_key_shadow` creates its decryption
session with `is_shadow = false`, not `true` — evaluated against a cluster
whose sessions return shadow coefficients exactly when the flag is `true`, the
facade's result carries `decrypt_shadows = none`, so the client finishing
recipe of the trait documentation has nothing to decrypt. -/
theorem document_key_shadow_passes_plain_mode :
    document_key_shadow flag_probe_cluster 0 0 =
      Except.ok { decrypted_secret := 0, common_point := some 1,
                  decrypt_shadows := none } ∧
    flag_probe_cluster.new_decryption_session 0 0 true =
      Except.ok (Except.ok
        { decrypted_secret := 0, common_point := some 1,
          decrypt_shadows := some [[7]] }) :=
  ⟨rfl, rfl⟩

/-- Claim C2 (amended): every facade error of `document_key` is one of
`BadSignature`, `AccessDenied` or `Internal`; and when no `DocumentKeyShare`
is stored — the session failing with `InvalidSessionId` per spec section 4.6 —
the facade returns `Internal ("invalid session id has been passed")`, because
the `From` conversion maps every cluster error except `AccessDenied` to
`Internal`. -/
theorem document_key_error_taxonomy :
    (∀ (X : ExternalCrypto) (cluster : ClusterClient)
       (sig : RequestSignature) (doc : DocumentAddress) (e : Error),
       document_key X cluster sig doc = Except.error e →
       e = Error.BadSignature ∨ e = Error.AccessDenied ∨ ∃ s, e = Error.Internal s) ∧
    (∀ (X : ExternalCrypto) (cluster : ClusterClient)
       (sig : RequestSignature) (doc : DocumentAddress) (pub : Public),
       X.recover sig doc = Except.ok pub →
       cluster.new_decryption_session doc sig false =
         Except.error ClusterError.InvalidSessionId →
       document_key X cluster sig doc =
         Except.error (Error.Internal "invalid session id has been passed")) := by
  constructor
  · intro X cluster sig doc e h
    unfold document_key at h
    cases hr : X.recover sig doc with
    | error s => simp [hr] at h; exact Or.inl h.symm
    | ok pub =>
      simp only [hr] at h
      cases hds : cluster.new_decryption_session doc sig false with
      | error ce =>
        simp [hds] at h
        rcases clusterErrorToError_cases ce with hc | ⟨s, hc⟩ <;> rw [hc] at h
        · exact Or.inr (Or.inl h.symm)
        · exact Or.inr (Or.inr ⟨s, h.symm⟩)
      | ok w =>
        simp only [hds] at h
        cases hw : w with
        | error ce =>
          simp [hw] at h
          rcases clusterErrorToError_cases ce with hc | ⟨s, hc⟩ <;> rw [hc] at h
          · exact Or.inr (Or.inl h.symm)
          · exact Or.inr (Or.inr ⟨s, h.symm⟩)
        | ok result =>
          simp only [hw] at h
          cases henc : X.encrypt_single_message pub result.decrypted_secret with
          | error s => simp [henc] at h; exact Or.inr (Or.inr ⟨_, h.symm⟩)
          | ok ctxt => simp [henc] at h
  · intro X cluster sig doc pub hr hds
    simp [document_key, hr, hds, clusterErrorToError, ClusterError.display]

/-- Claim C2 witness: on a cluster with no stored share, `document_key`
surfaces the `Internal` conversion of `InvalidSessionId`. -/
theorem document_key_error_taxonomy_witness :
    document_key trivial_crypto absent_share_cluster 3 4 =
      Except.error (Error.Internal "invalid session id has been passed") :=
  document_key_error_taxonomy.2 trivial_crypto absent_share_cluster 3 4 1 rfl rfl

/-- Claim C2 counterexample: the claim as stated fails — with no
`DocumentKeyShare` stored (session creation failing `InvalidSessionId` per
spec section 4.6), `document_key` does not return `DocumentNotFound` but
`Internal ("invalid session id has been passed")`. -/
theorem document_key_missing_share_not_document_not_found :
    document_key trivial_crypto absent_share_cluster 0 0 =
      Except.error (Error.Internal "invalid session id has been passed") ∧
    document_key trivial_crypto absent_share_cluster 0 0 ≠
      Except.error Error.DocumentNotFound := by
  constructor
  · rfl
  · intro h
    rw [show document_key trivial_crypto absent_share_cluster 0 0 =
      Except.error (Error.Internal "invalid session id has been passed") from rfl] at h
    exact Error.noConfusion (Except.error.inj h)

/-- Claim C9: when no public key can be recovered from the signature over the
document address, `generate_document_key` and `document_key` fail with
`BadSignature` at the facade — uniformly in the cluster, i.e. before any
session is created or any network traffic occurs. -/
theorem facade_bad_signature (X : ExternalCrypto)
    (sig : RequestSignature) (doc : DocumentAddress) (t : Nat) (e : String)
    (hr : X.recover sig doc = Except.error e) :
    ∀ cluster : ClusterClient,
      generate_document_key X cluster sig doc t = Except.error Error.BadSignature ∧
      document_key X cluster sig doc = Except.error Error.BadSignature := by
  intro cluster
  constructor
  · unfold generate_document_key
    rw [hr]
  · unfold document_key
    rw [hr]

/-- Claim C9 witness: a concrete unrecoverable signature fails both calls with
`BadSignature` on a cluster that would succeed. -/
theorem facade_bad_signature_witness :
    generate_document_key bad_signature_crypto ok_cluster 0 0 0 =
      Except.error Error.BadSignature ∧
    document_key bad_signature_crypto ok_cluster 0 0 =
      Except.error Error.BadSignature :=
  facade_bad_signature bad_signature_crypto 0 0 0 "unrecoverable" rfl ok_cluster

/-- Claim C10: `document_key_shadow` never returns `BadSignature` (it performs
no signature recovery and the cluster-error conversion never produces that
kind); it passes the signature directly into the decryption session it
creates; and it is the only `KeyServer` operation returning its successful
result unchanged: successful `generate_document_key` and `document_key`
results are ECIES ciphertexts produced for the recovered requestor public,
while a successful `document_key_shadow` result is exactly the session's wait
result. -/
theorem document_key_shadow_facade :
    (∀ (cluster : ClusterClient) (sig : RequestSignature) (doc : DocumentAddress),
       document_key_shadow cluster sig doc ≠ Except.error Error.BadSignature) ∧
    (∀ (cluster : ClusterClient) (sig : RequestSignature) (doc : DocumentAddress),
       document_key_shadow cluster sig doc =
         match cluster.new_decryption_session doc sig false with
         | .error e => .error (clusterErrorToError e)
         | .ok (.error e) => .error (clusterErrorToError e)
         | .ok (.ok result) => .ok result) ∧
    (∀ (X : ExternalCrypto) (cluster : ClusterClient)
       (sig : RequestSignature) (doc : DocumentAddress) (t : Nat) (r : List Nat),
       generate_document_key X cluster sig doc t = Except.ok r →
       ∃ pub dk, X.recover sig doc = Except.ok pub ∧
         X.encrypt_single_message pub dk = Except.ok r) ∧
    (∀ (X : ExternalCrypto) (cluster : ClusterClient)
       (sig : RequestSignature) (doc : DocumentAddress) (r : List Nat),
       document_key X cluster sig doc = Except.ok r →
       ∃ pub dk, X.recover sig doc = Except.ok pub ∧
         X.encrypt_single_message pub dk = Except.ok r) ∧
    (∀ (cluster : ClusterClient) (sig : RequestSignature) (doc : DocumentAddress)
       (r : DocumentEncryptedKeyShadow),
       document_key_shadow cluster sig doc = Except.ok r →
       cluster.new_decryption_session doc sig false = Except.ok (Except.ok r)) := by
  refine ⟨?_, ?_, ?_, ?_, ?_⟩
  · intro cluster sig doc h
    unfold document_key_shadow at h
    cases hds : cluster.new_decryption_session doc sig false with
    | error ce =>
      simp [hds] at h
      rcases clusterErrorToError_cases ce with hc | ⟨s, hc⟩ <;> simp [hc] at h
    | ok w =>
      simp only [hds] at h
      cases w with
      | error ce =>
        simp at h
        rcases clusterErrorToError_cases ce with hc | ⟨s, hc⟩ <;> simp [hc] at h
      | ok result => simp at h
  · intro cluster sig doc
    unfold document_key_shadow
    cases cluster.new_decryption_session doc sig false with
    | error ce => rfl
    | ok w => cases w <;> rfl
  · intro X cluster sig doc t r h
    unfold generate_document_key at h
    cases hr : X.recover sig doc with
    | error s => simp [hr] at h
    | ok pub =>
      simp only [hr] at h
      cases hes : cluster.new_encryption_session doc t with
      | error ce => simp [hes] at h
      | ok w =>
        simp only [hes] at h
        cases w with
        | error ce => simp at h
        | ok dk =>
          simp only at h
          cases henc : X.encrypt_single_message pub dk with
          | error s => simp [henc] at h
          | ok ctxt => simp [henc] at h; exact ⟨pub, dk, rfl, by rw [henc, h]⟩
  · intro X cluster sig doc r h
    unfold document_key at h
    cases hr : X.recover sig doc with
    | error s => simp [hr] at h
    | ok pub =>
      simp only [hr] at h
      cases hds : cluster.new_decryption_session doc sig false with
      | error ce => simp [hds] at h
      | ok w =>
        simp only [hds] at h
        cases w with
        | error ce => simp at h
        | ok result =>
          simp only at h
          cases henc : X.encrypt_single_message pub result.decrypted_secret with
          | error s => simp [henc] at h
          | ok ctxt =>
            simp [henc] at h
            exact ⟨pub, result.decrypted_secret, rfl, by rw [henc, h]⟩
  · intro cluster sig doc r h
    unfold document_key_shadow at h
    cases hds : cluster.new_decryption_session doc sig false with
    | error ce =>
      simp [hds] at h
    | ok w =>
      simp only [hds] at h
      cases w with
      | error ce => simp at h
      | ok result => simp at h; rw [h]

/-- Claim C10 witness: on the always-succeeding cluster, a successful
`generate_document_key` result is an ECIES ciphertext for the recovered
requestor public, and a successful `document_key_shadow` is the session's
wait result itself. -/
theorem document_key_shadow_facade_witness :
    (∃ pub dk, trivial_crypto.recover 0 0 = Except.ok pub ∧
       trivial_crypto.encrypt_single_message pub dk = Except.ok [9]) ∧
    ok_cluster.new_decryption_session 0 0 false =
      Except.ok (Except.ok
        { decrypted_secret := 9, common_point := some 1, decrypt_shadows := none }) :=
  ⟨document_key_shadow_facade.2.2.1 trivial_crypto ok_cluster 0 0 0 [9] rfl,
   document_key_shadow_facade.2.2.2.2 ok_cluster 0 0
     { decrypted_secret := 9, common_point := some 1, decrypt_shadows := none } rfl⟩

end SecretStore
